import Mathlib

/-!
Verification model of the Ziva backend (src/Backend/server.js).

The development shallowly embeds the orchestration core of the server:

* the per-session chat history map (`chatSessions`) and its lazy creation,
* the Gemini candidate-fallback loop of `processWithGemini`, including the
  quota-exhaustion special case and the mutable `activeModelId`,
* the speech worker manager (`_ensureSpeechWorker`, `_speechRequest`,
  `_rejectAllSpeechPending`, the per-request timer and the stdout
  correlation handler),
* the `textToSpeech` temp-file flow, and
* the `/chat`, `/talk` and `/clear-history` handlers.

JavaScript `Map`s are modelled as association lists with `Map.set` /
`Map.delete` semantics, promises as explicit `Settlement` values returned by
the transition functions, and the external Gemini / speech-worker processes
as oracle parameters.  JSON parsing of worker stdout lines is modelled at
parsed-message granularity (`WorkerMsg`); unparseable lines are those the
handler skips, which never touch the pending table.
-/

namespace Ziva

/-! ### Association-list model of JavaScript `Map` -/

def mapLookup {α : Type} : List (String × α) → String → Option α
  | [], _ => none
  | (k', v) :: rest, k => if k' = k then some v else mapLookup rest k

def mapSet {α : Type} : List (String × α) → String → α → List (String × α)
  | [], k, v => [(k, v)]
  | (k', v') :: rest, k, v =>
    if k' = k then (k, v) :: rest else (k', v') :: mapSet rest k v

def mapDelete {α : Type} : List (String × α) → String → List (String × α)
  | [], _ => []
  | (k', v) :: rest, k =>
    if k' = k then mapDelete rest k else (k', v) :: mapDelete rest k

theorem mapLookup_set_self {α : Type} (m : List (String × α)) (k : String) (v : α) :
    mapLookup (mapSet m k v) k = some v := by
  induction m with
  | nil => simp [mapSet, mapLookup]
  | cons p rest ih =>
    obtain ⟨k', v'⟩ := p
    by_cases h : k' = k
    · simp [mapSet, mapLookup, h]
    · simp [mapSet, mapLookup, h, ih]

theorem mapLookup_set_ne {α : Type} (m : List (String × α)) (k k' : String) (v : α)
    (h : k' ≠ k) : mapLookup (mapSet m k v) k' = mapLookup m k' := by
  have h' : ¬(k = k') := fun hh => h (Eq.symm hh)
  induction m with
  | nil => simp [mapSet, mapLookup, h']
  | cons p rest ih =>
    obtain ⟨a, w⟩ := p
    by_cases ha : a = k
    · subst ha
      simp [mapSet, mapLookup, h']
    · by_cases hb : a = k'
      · subst hb
        simp [mapSet, mapLookup, ha]
      · simp [mapSet, mapLookup, ha, hb, ih]

theorem mapLookup_delete_self {α : Type} (m : List (String × α)) (k : String) :
    mapLookup (mapDelete m k) k = none := by
  induction m with
  | nil => simp [mapDelete, mapLookup]
  | cons p rest ih =>
    obtain ⟨a, w⟩ := p
    by_cases ha : a = k
    · simp [mapDelete, ha, ih]
    · simp [mapDelete, mapLookup, ha, ih]

theorem mapLookup_delete_ne {α : Type} (m : List (String × α)) (k k' : String)
    (h : k' ≠ k) : mapLookup (mapDelete m k) k' = mapLookup m k' := by
  have h' : ¬(k = k') := fun hh => h (Eq.symm hh)
  induction m with
  | nil => simp [mapDelete, mapLookup]
  | cons p rest ih =>
    obtain ⟨a, w⟩ := p
    by_cases ha : a = k
    · subst ha
      simp [mapDelete, mapLookup, h', ih]
    · by_cases hb : a = k'
      · subst hb
        simp [mapDelete, mapLookup, ha]
      · simp [mapDelete, mapLookup, ha, hb, ih]

/-! ### String containment, JavaScript `String.prototype.includes` -/

def strContainsAux (pat : List Char) : List Char → Bool
  | [] => pat.isEmpty
  | c :: cs => pat.isPrefixOf (c :: cs) || strContainsAux pat cs

def strContains (s pat : String) : Bool :=
  strContainsAux pat.data s.data

/-- JavaScript `String.prototype.startsWith`, on the character lists so it
evaluates by kernel reduction. -/
def strStartsWith (s pat : String) : Bool :=
  pat.data.isPrefixOf s.data

/-! ### Gemini data model (`processWithGemini` and its globals) -/

/-- Structured reply parsed from the model backend; the `exhausted` flag is
set only on the quota fallback (absent, hence `false`, on parsed replies
unless the model itself emitted it). -/
structure ModelReply where
  text : String
  facialExpression : String
  animation : String
  exhausted : Bool
  deriving DecidableEq

/-- Outcome of one candidate attempt as seen by the `try`/`catch` in
`processWithGemini`: either a parsed structured reply, or a thrown error
carrying an optional HTTP status and a message (a `JSON.parse` failure is a
`failure` with no status). -/
inductive GeminiOutcome where
  | success (reply : ModelReply)
  | failure (status : Option Nat) (msg : String)
  deriving DecidableEq

/-- One history entry; the JS shape `{role, parts: [{text}]}` always has a
single-element `parts` array, flattened here to a `text` field. -/
structure Turn where
  role : String
  text : String
  deriving DecidableEq

def MODEL_CANDIDATES : List String := ["gemini-2.5-flash", "gemini-2.5-pro"]

def VALID_EXPRESSIONS : List String :=
  ["default", "smile", "sad", "surprised", "angry", "crazy"]

def VALID_ANIMATIONS : List String :=
  ["Angry", "Arguing", "BlowKiss", "Clapping", "Excited", "GangamStyleDance",
   "Greeting", "Happy", "Idle", "LookAround", "No", "SalsaDance", "SambaDance",
   "Talking", "Thankful", "Thinking", "ThoughtfulHeadNod", "ThoughtfulHeadShake"]

/-- The quota-exhaustion test from the `catch` block of `processWithGemini`:
`(err.status === 429 || msg.includes('quota') || msg.includes('limit: 0')) &&
 (msg.includes('Too Many Requests') || msg.includes('quota') || msg.includes('limit: 0'))`. -/
def isQuotaExceeded (status : Option Nat) (msg : String) : Bool :=
  (status == some 429 || strContains msg "quota" || strContains msg "limit: 0") &&
  (strContains msg "Too Many Requests" || strContains msg "quota" ||
    strContains msg "limit: 0")

/-- The fixed fallback reply returned when the quota check fires. -/
def geminiFallbackReply : ModelReply :=
  { text := "Sorry, the Gemini API free tier quota has been exceeded for this project. Please try again later or upgrade your API plan."
    facialExpression := "sad"
    animation := "Idle"
    exhausted := true }

/-- The module-level mutable state touched by `processWithGemini`:
`chatSessions` and `activeModelId`. -/
structure ServerState where
  chatSessions : List (String × List Turn)
  activeModelId : String
  deriving DecidableEq

/-- State at module load: empty session map, `activeModelId = MODEL_CANDIDATES[0]`. -/
def initialServerState : ServerState :=
  { chatSessions := [], activeModelId := MODEL_CANDIDATES.headD "" }

/-- Reading a session history: `chatSessions.get(sessionId)` after the lazy
`if (!has) set(sessionId, [])`, i.e. the stored turns or `[]`. -/
def getHistory (st : ServerState) (sessionId : String) : List Turn :=
  (mapLookup st.chatSessions sessionId).getD []

/-- How one call's candidate loop ends: a parsed reply, the quota fallback,
or falling off the list (the final `throw`, with the last error message). -/
inductive CallOutcome where
  | success (reply : ModelReply)
  | quota
  | failed (lastErr : Option String)
  deriving DecidableEq

structure RunResult where
  outcome : CallOutcome
  active : String
  attempts : List String
  deriving DecidableEq

/-- The `for (const candidate of MODEL_CANDIDATES)` loop body.  Each iteration
first makes `activeModelId` equal to the candidate (the `if (candidate !==
activeModelId)` switch), then consults the backend; a quota-flagged failure
returns the fallback, any other failure records `lastError` and continues.
`attempts` records the candidates tried, in order. -/
def runCandidates (b : String → GeminiOutcome) :
    List String → String → Option String → RunResult
  | [], active, lastErr => ⟨.failed lastErr, active, []⟩
  | c :: rest, _, _ =>
    match b c with
    | .success r => ⟨.success r, c, [c]⟩
    | .failure status msg =>
      if isQuotaExceeded status msg then ⟨.quota, c, [c]⟩
      else
        let rr := runCandidates b rest c (some msg)
        ⟨rr.outcome, rr.active, c :: rr.attempts⟩

structure RespondResult where
  reply : Option ModelReply
  state : ServerState
  attempts : List String

/-- `processWithGemini(userMessage, sessionId)`: lazily create the session
history, run the candidate loop, and on success push the user and model
turns onto the session history.  `reply = none` models the final `throw`. -/
def processWithGemini (b : String → GeminiOutcome) (userMessage sessionId : String)
    (st : ServerState) : RespondResult :=
  let history := getHistory st sessionId
  let rr := runCandidates b MODEL_CANDIDATES st.activeModelId none
  match rr.outcome with
  | .success r =>
    { reply := some r
      state := { chatSessions := mapSet st.chatSessions sessionId
                   (history ++ [{ role := "user", text := userMessage },
                                { role := "model", text := r.text }])
                 activeModelId := rr.active }
      attempts := rr.attempts }
  | .quota =>
    { reply := some geminiFallbackReply
      state := { chatSessions := mapSet st.chatSessions sessionId history
                 activeModelId := rr.active }
      attempts := rr.attempts }
  | .failed _ =>
    { reply := none
      state := { chatSessions := mapSet st.chatSessions sessionId history
                 activeModelId := rr.active }
      attempts := rr.attempts }

/-- Outcome of the candidate loop run from the initial `activeModelId`; the
lemmas below show the outcome does not depend on that starting value. -/
def callOutcome (b : String → GeminiOutcome) : CallOutcome :=
  (runCandidates b MODEL_CANDIDATES (MODEL_CANDIDATES.headD "") none).outcome

def callSucceeds (b : String → GeminiOutcome) : Bool :=
  match callOutcome b with
  | .success _ => true
  | _ => false

def replyTextOf (b : String → GeminiOutcome) : String :=
  match callOutcome b with
  | .success r => r.text
  | _ => ""

/-- The turns one `processWithGemini` call appends to its session history. -/
def callTurns (b : String → GeminiOutcome) (m : String) : List Turn :=
  match callOutcome b with
  | .success r => [{ role := "user", text := m }, { role := "model", text := r.text }]
  | _ => []

/-- Sequential composition of `processWithGemini` calls against one session. -/
def respondCalls (sid : String) :
    List ((String → GeminiOutcome) × String) → ServerState → ServerState
  | [], st => st
  | c :: rest, st => respondCalls sid rest (processWithGemini c.1 c.2 sid st).state

/-! ### Lemmas about the candidate loop -/

theorem runCandidates_outcome_quota (b : String → GeminiOutcome) (cs : List String) :
    ∀ a a' e e', (runCandidates b cs a e).outcome = .quota →
      (runCandidates b cs a' e').outcome = .quota := by
  induction cs with
  | nil => intro a a' e e' h; simp [runCandidates] at h
  | cons c rest ih =>
    intro a a' e e' h
    cases hb : b c with
    | success r => simp [runCandidates, hb] at h
    | failure status msg =>
      by_cases hq : isQuotaExceeded status msg
      · simp [runCandidates, hb, hq]
      · simp [runCandidates, hb, hq] at h ⊢
        exact ih c c (some msg) (some msg) h

theorem runCandidates_outcome_success (b : String → GeminiOutcome) (cs : List String) :
    ∀ a a' e e' r, (runCandidates b cs a e).outcome = .success r →
      (runCandidates b cs a' e').outcome = .success r := by
  induction cs with
  | nil => intro a a' e e' r h; simp [runCandidates] at h
  | cons c rest ih =>
    intro a a' e e' r h
    cases hb : b c with
    | success r' => simp [runCandidates, hb] at h ⊢; exact h
    | failure status msg =>
      by_cases hq : isQuotaExceeded status msg
      · simp [runCandidates, hb, hq] at h
      · simp [runCandidates, hb, hq] at h ⊢
        exact ih c c (some msg) (some msg) r h

theorem runCandidates_outcome_failed (b : String → GeminiOutcome) (cs : List String) :
    ∀ a a' e e' x, (runCandidates b cs a e).outcome = .failed x →
      ∃ y, (runCandidates b cs a' e').outcome = .failed y := by
  induction cs with
  | nil => intro a a' e e' x h; exact ⟨e', by simp [runCandidates]⟩
  | cons c rest ih =>
    intro a a' e e' x h
    cases hb : b c with
    | success r => simp [runCandidates, hb] at h
    | failure status msg =>
      by_cases hq : isQuotaExceeded status msg
      · simp [runCandidates, hb, hq] at h
      · simp [runCandidates, hb, hq] at h ⊢
        exact ih c c (some msg) (some msg) x h

theorem runCandidates_attempts_head (b : String → GeminiOutcome) (c : String)
    (rest : List String) (a : String) (e : Option String) :
    (runCandidates b (c :: rest) a e).attempts.head? = some c := by
  cases hb : b c with
  | success r => simp [runCandidates, hb]
  | failure status msg =>
    by_cases hq : isQuotaExceeded status msg <;> simp [runCandidates, hb, hq]

theorem runCandidates_active_last (b : String → GeminiOutcome) :
    ∀ (cs : List String) (a : String) (e : Option String),
      (runCandidates b cs a e).active = (runCandidates b cs a e).attempts.getLastD a := by
  intro cs
  induction cs with
  | nil => intro a e; simp [runCandidates]
  | cons c rest ih =>
    intro a e
    cases hb : b c with
    | success r => simp [runCandidates, hb]
    | failure status msg =>
      by_cases hq : isQuotaExceeded status msg
      · simp [runCandidates, hb, hq]
      · simp only [runCandidates, hb, hq, Bool.false_eq_true, if_false,
          List.getLastD_cons]
        exact ih c (some msg)

/-! ### Lemmas about `processWithGemini` -/

theorem processWithGemini_attempts (b : String → GeminiOutcome)
    (m sid : String) (st : ServerState) :
    (processWithGemini b m sid st).attempts
      = (runCandidates b MODEL_CANDIDATES st.activeModelId none).attempts := by
  cases ho : (runCandidates b MODEL_CANDIDATES st.activeModelId none).outcome <;>
    simp [processWithGemini, ho]

theorem processWithGemini_active (b : String → GeminiOutcome)
    (m sid : String) (st : ServerState) :
    (processWithGemini b m sid st).state.activeModelId
      = (runCandidates b MODEL_CANDIDATES st.activeModelId none).active := by
  cases ho : (runCandidates b MODEL_CANDIDATES st.activeModelId none).outcome <;>
    simp [processWithGemini, ho]

theorem processWithGemini_history_self (b : String → GeminiOutcome)
    (m sid : String) (st : ServerState) :
    getHistory (processWithGemini b m sid st).state sid
      = getHistory st sid ++ callTurns b m := by
  cases ho : (runCandidates b MODEL_CANDIDATES st.activeModelId none).outcome with
  | success r =>
    have hc : callOutcome b = .success r :=
      runCandidates_outcome_success b MODEL_CANDIDATES st.activeModelId
        (MODEL_CANDIDATES.headD "") none none r ho
    simp [processWithGemini, ho, callTurns, hc, getHistory, mapLookup_set_self]
  | quota =>
    have hc : callOutcome b = .quota :=
      runCandidates_outcome_quota b MODEL_CANDIDATES st.activeModelId
        (MODEL_CANDIDATES.headD "") none none ho
    simp [processWithGemini, ho, callTurns, hc, getHistory, mapLookup_set_self]
  | failed x =>
    obtain ⟨y, hc⟩ :=
      runCandidates_outcome_failed b MODEL_CANDIDATES st.activeModelId
        (MODEL_CANDIDATES.headD "") none none x ho
    have hc' : callOutcome b = .failed y := hc
    simp [processWithGemini, ho, callTurns, hc', getHistory, mapLookup_set_self]

theorem processWithGemini_other_session (b : String → GeminiOutcome)
    (m sid other : String) (st : ServerState) (h : other ≠ sid) :
    mapLookup (processWithGemini b m sid st).state.chatSessions other
      = mapLookup st.chatSessions other := by
  cases ho : (runCandidates b MODEL_CANDIDATES st.activeModelId none).outcome <;>
    simp [processWithGemini, ho, mapLookup_set_ne _ _ _ _ h]

theorem processWithGemini_quota_reply (b : String → GeminiOutcome)
    (m sid : String) (st : ServerState) (h : callOutcome b = .quota) :
    (processWithGemini b m sid st).reply = some geminiFallbackReply ∧
    (processWithGemini b m sid st).state.chatSessions
      = mapSet st.chatSessions sid (getHistory st sid) := by
  have hq : (runCandidates b MODEL_CANDIDATES st.activeModelId none).outcome = .quota :=
    runCandidates_outcome_quota b MODEL_CANDIDATES (MODEL_CANDIDATES.headD "")
      st.activeModelId none none h
  simp [processWithGemini, hq]

theorem processWithGemini_success_reply (b : String → GeminiOutcome)
    (m sid : String) (st : ServerState) (r : ModelReply)
    (h : callOutcome b = .success r) :
    (processWithGemini b m sid st).reply = some r := by
  have hs : (runCandidates b MODEL_CANDIDATES st.activeModelId none).outcome
      = .success r :=
    runCandidates_outcome_success b MODEL_CANDIDATES (MODEL_CANDIDATES.headD "")
      st.activeModelId none none r h
  simp [processWithGemini, hs]

theorem respondCalls_history (sid : String) :
    ∀ (calls : List ((String → GeminiOutcome) × String)) (st : ServerState),
      getHistory (respondCalls sid calls st) sid
        = getHistory st sid ++ (calls.map fun c => callTurns c.1 c.2).flatten := by
  intro calls
  induction calls with
  | nil => intro st; simp [respondCalls]
  | cons c rest ih =>
    intro st
    simp [respondCalls, ih, processWithGemini_history_self, List.append_assoc]

theorem flatten_length_two (L : List (List Turn)) (h : ∀ x ∈ L, x.length = 2) :
    L.flatten.length = 2 * L.length := by
  induction L with
  | nil => simp
  | cons x rest ih =>
    simp only [List.flatten_cons, List.length_append, List.length_cons]
    rw [h x (by simp), ih (fun y hy => h y (by simp [hy]))]
    ring

/-! ### Speech worker manager (`_speechWorker`, `_speechPending`) -/

/-- Errors a pending speech request can be rejected with, one constructor
per construction site in `server.js`. -/
inductive SpeechError where
  | spawnFailed (msg : String)
  | exited (code : Option Int) (signal : Option String)
  | timedOut (ms : Nat)
  | workerReported (msg : String)
  | writeFailed (msg : String)
  | disabled
  | ttsFileMissing
  deriving DecidableEq

/-- Errors that stem from the worker process itself erroring or exiting
(the two `_rejectAllSpeechPending` call sites). -/
def SpeechError.isProcessFailure : SpeechError → Bool
  | .spawnFailed _ => true
  | .exited _ _ => true
  | _ => false

def optIntText : Option Int → String
  | none => "null"
  | some n => toString n

def SpeechError.message : SpeechError → String
  | .spawnFailed msg => msg
  | .exited code signal =>
    "speech worker exited (code=" ++ optIntText code ++ ", signal=" ++
      signal.getD "null" ++ ")"
  | .timedOut ms => "speech worker timeout after " ++ toString ms ++ "ms"
  | .workerReported msg => msg
  | .writeFailed msg => msg
  | .disabled => "Speech worker disabled/unavailable"
  | .ttsFileMissing => "TTS audio file not created"

/-- A worker stdout line after `JSON.parse`: `{id, ok, text?, error?}`.
`id = none` also covers a parsed object without an `id` field. -/
structure WorkerMsg where
  id : Option String
  ok : Bool
  text : Option String
  error : Option String
  deriving DecidableEq

/-- A promise settlement: resolving or rejecting the pending request with
the given correlation id. -/
inductive Settlement where
  | resolved (id : String) (msg : WorkerMsg)
  | rejected (id : String) (e : SpeechError)
  deriving DecidableEq

def settlementIsProcessFailure : Settlement → Bool
  | .rejected _ e => e.isProcessFailure
  | .resolved _ _ => false

/-- The manager's module-level state: the worker handle (`none` = the
`_speechWorker = null` state; `some g` = the g-th spawned process, which the
manager never kills itself), the stdout line buffer, and the pending map
`id ↦ timeoutMs` (the timer handle of a pending entry is represented by its
duration). -/
structure SpeechState where
  worker : Option Nat
  nextGen : Nat
  stdoutBuf : String
  pending : List (String × Nat)
  deriving DecidableEq

/-- `_rejectAllSpeechPending(err)`: clear every timer, reject every pending
promise with `err`, clear the map. -/
def rejectAllSpeechPending (st : SpeechState) (e : SpeechError) :
    SpeechState × List Settlement :=
  ({ st with pending := [] }, st.pending.map fun p => .rejected p.1 e)

/-- The worker `'error'` listener: reject all pending (the handle is left in
place). -/
def onSpeechWorkerError (st : SpeechState) (emsg : String) :
    SpeechState × List Settlement :=
  rejectAllSpeechPending st (.spawnFailed emsg)

/-- The worker `'exit'` listener: reject all pending with the exit error and
set `_speechWorker = null`. -/
def onSpeechWorkerExit (st : SpeechState) (code : Option Int)
    (signal : Option String) : SpeechState × List Settlement :=
  let r := rejectAllSpeechPending st (.exited code signal)
  ({ r.1 with worker := none }, r.2)

/-- `_ensureSpeechWorker()`: `none` when the worker is disabled; otherwise
return the live handle, or spawn a fresh process (resetting the stdout
buffer) when there is none. -/
def ensureSpeechWorker (useWorker : Bool) (st : SpeechState) :
    SpeechState × Option Nat :=
  if !useWorker then (st, none)
  else
    match st.worker with
    | some w => (st, some w)
    | none =>
      ({ st with worker := some st.nextGen, nextGen := st.nextGen + 1,
                 stdoutBuf := "" },
       some st.nextGen)

/-- `_speechRequest(payload)`: ensure the worker, register the pending entry
with its timer, write the payload to stdin.  The returned settlement, when
present, is the immediate (synchronous) rejection; `none` means the promise
is left pending. -/
def speechRequest (useWorker writeOk : Bool) (st : SpeechState) (id : String)
    (timeoutMs : Nat) : SpeechState × Option Settlement :=
  let e := ensureSpeechWorker useWorker st
  match e.2 with
  | none => (e.1, some (.rejected id .disabled))
  | some _ =>
    let st2 := { e.1 with pending := mapSet e.1.pending id timeoutMs }
    if writeOk then (st2, none)
    else ({ st2 with pending := mapDelete st2.pending id },
          some (.rejected id (.writeFailed "stdin write failed")))

/-- The per-request timer callback: delete the entry and reject with the
timeout error.  It fires only while the entry's timer is still armed. -/
def onSpeechTimeout (st : SpeechState) (id : String) (timeoutMs : Nat) :
    SpeechState × Settlement :=
  ({ st with pending := mapDelete st.pending id },
   .rejected id (.timedOut timeoutMs))

/-- The stdout handler, at parsed-line granularity: drop messages without a
usable id or with no matching pending entry; otherwise remove the entry,
clear its timer, and settle the promise according to `ok`. -/
def handleWorkerMsg (st : SpeechState) (msg : WorkerMsg) :
    SpeechState × List Settlement :=
  match msg.id with
  | none => (st, [])
  | some id =>
    if id = "" then (st, [])
    else
      match mapLookup st.pending id with
      | none => (st, [])
      | some _ =>
        let st2 := { st with pending := mapDelete st.pending id }
        if msg.ok then (st2, [.resolved id msg])
        else (st2, [.rejected id (.workerReported (msg.error.getD "speech worker error"))])

/-! ### `textToSpeech` temp-file flow -/

/-- The environment of one `textToSpeech` call: the outcome of the awaited
worker request (or one-shot python call), whether the uniquely named temp
output file exists on disk after that step, and the base64 encoding of its
bytes when it does. -/
structure TtsEnv where
  workerResult : Except SpeechError Unit
  fileWritten : Bool
  b64 : String

structure TtsRun where
  result : Except SpeechError String
  fileLeft : Bool

/-- `textToSpeech(text)`: await the worker; a rejection propagates at once
(no cleanup runs, so the file, if the worker created it, stays).  On worker
success: missing file is the distinct `ttsFileMissing` error; otherwise read
the file, `unlinkSync` it, and return the data URL. -/
def textToSpeechRun (env : TtsEnv) : TtsRun :=
  match env.workerResult with
  | .error e => { result := .error e, fileLeft := env.fileWritten }
  | .ok _ =>
    if env.fileWritten then
      { result := .ok ("data:audio/wav;base64," ++ env.b64), fileLeft := false }
    else
      { result := .error .ttsFileMissing, fileLeft := false }

/-! ### The `/chat`, `/talk` and `/clear-history` handlers -/

/-- Observable outcome of one handler invocation: final server state, HTTP
status, the reply fields echoed into the JSON body (`reply = none` for error
bodies), and instrumentation flags for whether `textToSpeech` and
`processWithGemini` were invoked. -/
structure HandlerResult where
  state : ServerState
  status : Nat
  reply : Option ModelReply
  userText : Option String
  audio : Option String
  ttsError : Option String
  ttsAttempted : Bool
  geminiCalled : Bool

/-- The `/chat` route after body parsing: call `processWithGemini`; an
exhausted reply is returned with `audio: null` and no synthesis; otherwise
synthesize, downgrading a synthesis failure to a reply without audio. -/
def chatHandler (b : String → GeminiOutcome) (env : TtsEnv)
    (message sessionId : String) (st : ServerState) : HandlerResult :=
  let g := processWithGemini b message sessionId st
  match g.reply with
  | none =>
    { state := g.state, status := 500, reply := none, userText := none,
      audio := none, ttsError := none, ttsAttempted := false, geminiCalled := true }
  | some aiResponse =>
    if aiResponse.exhausted then
      { state := g.state, status := 200, reply := some aiResponse, userText := none,
        audio := none, ttsError := none, ttsAttempted := false, geminiCalled := true }
    else
      match (textToSpeechRun env).result with
      | .ok audioUrl =>
        { state := g.state, status := 200, reply := some aiResponse,
          userText := none, audio := some audioUrl, ttsError := none,
          ttsAttempted := true, geminiCalled := true }
      | .error e =>
        { state := g.state, status := 200, reply := some aiResponse,
          userText := none, audio := none, ttsError := some e.message,
          ttsAttempted := true, geminiCalled := true }

/-- The `/talk` route from the point where the trimmed transcript `userText`
is available: the unusable-transcript gate (`!userText`, the sentinel, the
`'STT error:'` pattern) answers 400 without calling Gemini; otherwise the
flow is the `/chat` flow plus the echoed `userText`. -/
def talkHandlerFromTranscript (b : String → GeminiOutcome) (env : TtsEnv)
    (userText sessionId : String) (st : ServerState) : HandlerResult :=
  if userText == "" || userText == "Could not understand audio"
      || strStartsWith userText "STT error:" then
    { state := st, status := 400, reply := none, userText := none, audio := none,
      ttsError := none, ttsAttempted := false, geminiCalled := false }
  else
    let g := processWithGemini b userText sessionId st
    match g.reply with
    | none =>
      { state := g.state, status := 500, reply := none, userText := none,
        audio := none, ttsError := none, ttsAttempted := false, geminiCalled := true }
    | some aiResponse =>
      if aiResponse.exhausted then
        { state := g.state, status := 200, reply := some aiResponse,
          userText := some userText, audio := none, ttsError := none,
          ttsAttempted := false, geminiCalled := true }
      else
        match (textToSpeechRun env).result with
        | .ok audioUrl =>
          { state := g.state, status := 200, reply := some aiResponse,
            userText := some userText, audio := some audioUrl, ttsError := none,
            ttsAttempted := true, geminiCalled := true }
        | .error e =>
          { state := g.state, status := 200, reply := some aiResponse,
            userText := some userText, audio := none, ttsError := some e.message,
            ttsAttempted := true, geminiCalled := true }

/-- `const id = sessionId || 'default'` from the `/clear-history` route. -/
def resolveClearId : Option String → String
  | none => "default"
  | some s => if s == "" then "default" else s

/-- The `/clear-history` route: `chatSessions.delete(id)` and a success
body; the handler is total, so no input makes it throw. -/
def clearHistoryHandler (st : ServerState) (sessionId : Option String) :
    ServerState × Bool × String :=
  let id := resolveClearId sessionId
  ({ chatSessions := mapDelete st.chatSessions id,
     activeModelId := st.activeModelId },
   true, "Chat history cleared for session: " ++ id)

/-! ### Claim theorems -/

/-- C1: if the speech worker process errors or exits while any number of
requests are pending, every pending request is rejected with a
process-failure error and the pending table is emptied; after an exit the
manager additionally holds no live worker handle, so the next
`ensureWorker` call spawns a fresh worker process. -/
theorem speechWorker_crash_rejects_all_pending
    (st : SpeechState) (emsg : String) (code : Option Int) (signal : Option String) :
    (onSpeechWorkerError st emsg).2
        = st.pending.map (fun p => Settlement.rejected p.1 (.spawnFailed emsg)) ∧
    ((onSpeechWorkerError st emsg).2.all settlementIsProcessFailure) = true ∧
    (onSpeechWorkerError st emsg).1.pending = [] ∧
    (onSpeechWorkerExit st code signal).2
        = st.pending.map (fun p => Settlement.rejected p.1 (.exited code signal)) ∧
    ((onSpeechWorkerExit st code signal).2.all settlementIsProcessFailure) = true ∧
    (onSpeechWorkerExit st code signal).2.length = st.pending.length ∧
    (onSpeechWorkerExit st code signal).1.pending = [] ∧
    (onSpeechWorkerExit st code signal).1.worker = none ∧
    (ensureSpeechWorker true (onSpeechWorkerExit st code signal).1).1.worker
        = some (onSpeechWorkerExit st code signal).1.nextGen ∧
    (ensureSpeechWorker true (onSpeechWorkerExit st code signal).1).2
        = some (onSpeechWorkerExit st code signal).1.nextGen := by
  refine ⟨rfl, ?_, rfl, rfl, ?_, by simp [onSpeechWorkerExit, rejectAllSpeechPending],
    rfl, rfl, ?_, ?_⟩
  · simp only [onSpeechWorkerError, rejectAllSpeechPending, List.all_eq_true]
    intro s hs
    obtain ⟨p, _, rfl⟩ := List.mem_map.1 hs
    rfl
  · simp only [onSpeechWorkerExit, rejectAllSpeechPending, List.all_eq_true]
    intro s hs
    obtain ⟨p, _, rfl⟩ := List.mem_map.1 hs
    rfl
  · simp [ensureSpeechWorker, onSpeechWorkerExit, rejectAllSpeechPending]
  · simp [ensureSpeechWorker, onSpeechWorkerExit, rejectAllSpeechPending]

/-- C4: a speech request whose correlated response never arrives is rejected
by its per-request timer with the timeout error; afterwards the pending
table holds no entry for its id, the worker handle is untouched (the timer
does not kill the worker), and a late response bearing that id is dropped
without settling anything. -/
theorem speech_timeout_rejects_and_drops_late
    (st : SpeechState) (id : String) (ms : Nat) (ok : Bool)
    (txt err : Option String) :
    (speechRequest true true st id ms).2 = none ∧
    mapLookup (speechRequest true true st id ms).1.pending id = some ms ∧
    (onSpeechTimeout (speechRequest true true st id ms).1 id ms).2
        = Settlement.rejected id (.timedOut ms) ∧
    mapLookup (onSpeechTimeout (speechRequest true true st id ms).1 id ms).1.pending id
        = none ∧
    (onSpeechTimeout (speechRequest true true st id ms).1 id ms).1.worker
        = (speechRequest true true st id ms).1.worker ∧
    handleWorkerMsg (onSpeechTimeout (speechRequest true true st id ms).1 id ms).1
        { id := some id, ok := ok, text := txt, error := err }
        = ((onSpeechTimeout (speechRequest true true st id ms).1 id ms).1, []) := by
  have hdrop : ∀ st' : SpeechState, mapLookup st'.pending id = none →
      handleWorkerMsg st' { id := some id, ok := ok, text := txt, error := err }
        = (st', []) := by
    intro st' hnone
    by_cases hid : id = ""
    · simp [handleWorkerMsg, hid]
    · simp [handleWorkerMsg, hid, hnone]
  cases hw : st.worker with
  | none =>
    refine ⟨?_, ?_, rfl, ?_, ?_, ?_⟩ <;>
      simp [speechRequest, ensureSpeechWorker, hw, onSpeechTimeout,
        mapLookup_set_self, mapLookup_delete_self]
    exact hdrop _ (by simp [speechRequest, ensureSpeechWorker, hw, onSpeechTimeout,
      mapLookup_delete_self])
  | some w =>
    refine ⟨?_, ?_, rfl, ?_, ?_, ?_⟩ <;>
      simp [speechRequest, ensureSpeechWorker, hw, onSpeechTimeout,
        mapLookup_set_self, mapLookup_delete_self]
    exact hdrop _ (by simp [speechRequest, ensureSpeechWorker, hw, onSpeechTimeout,
      mapLookup_delete_self])

/-! ### Concrete inputs used by counterexamples and witnesses -/

def demoReply : ModelReply :=
  { text := "sure!", facialExpression := "smile", animation := "Talking",
    exhausted := false }

def demoBackendOk : String → GeminiOutcome := fun _ => .success demoReply

def demoQuotaBackend : String → GeminiOutcome :=
  fun _ => .failure (some 429) "Too Many Requests"

def cexBackendFirstFails : String → GeminiOutcome := fun c =>
  if c == "gemini-2.5-flash" then .failure (some 404) "Not Found"
  else .success { text := "hello there", facialExpression := "smile",
                  animation := "Talking", exhausted := false }

def cexOutOfVocabBackend : String → GeminiOutcome :=
  fun _ => .success { text := "hey!", facialExpression := "confused",
                      animation := "Backflip", exhausted := false }

def envTtsOk : TtsEnv := ⟨.ok (), true, "UklGRg=="⟩

def ttsFailEnv : TtsEnv := ⟨.error (.workerReported "piper failed"), true, ""⟩

def demoCalls : List ((String → GeminiOutcome) × String) :=
  [(demoBackendOk, "hi"), (demoBackendOk, "yo")]

def demoSessions : ServerState :=
  { chatSessions := [("alice", [Turn.mk "user" "hi"])],
    activeModelId := "gemini-2.5-flash" }

/-- C2: whenever the model backend signals rate/quota exhaustion,
`processWithGemini` returns (rather than throws) the fixed fallback reply
with `exhausted: true`, expression `"sad"`, animation `"Idle"` and the
apology text, and both the `/chat` and `/talk` orchestrators answer it with
`audio: null` without attempting speech synthesis. -/
theorem quota_exhaustion_fallback_no_tts
    (b : String → GeminiOutcome) (env : TtsEnv) (m sid utext sid2 : String)
    (st st2 : ServerState)
    (hq : callOutcome b = .quota)
    (hu : (utext == "" || utext == "Could not understand audio"
            || strStartsWith utext "STT error:") = false) :
    geminiFallbackReply.exhausted = true ∧
    geminiFallbackReply.facialExpression = "sad" ∧
    geminiFallbackReply.animation = "Idle" ∧
    (chatHandler b env m sid st).reply = some geminiFallbackReply ∧
    (chatHandler b env m sid st).audio = none ∧
    (chatHandler b env m sid st).ttsAttempted = false ∧
    (chatHandler b env m sid st).status = 200 ∧
    (talkHandlerFromTranscript b env utext sid2 st2).reply = some geminiFallbackReply ∧
    (talkHandlerFromTranscript b env utext sid2 st2).audio = none ∧
    (talkHandlerFromTranscript b env utext sid2 st2).ttsAttempted = false ∧
    (talkHandlerFromTranscript b env utext sid2 st2).status = 200 := by
  have hchat := (processWithGemini_quota_reply b m sid st hq).1
  have htalk := (processWithGemini_quota_reply b utext sid2 st2 hq).1
  refine ⟨rfl, rfl, rfl, ?_, ?_, ?_, ?_, ?_, ?_, ?_, ?_⟩ <;>
    simp [chatHandler, talkHandlerFromTranscript, hu, hchat, htalk,
      geminiFallbackReply]

/-- Witness for C2 at a concrete 429 quota error and transcript. -/
theorem quota_exhaustion_fallback_no_tts_witness :
    callOutcome demoQuotaBackend = CallOutcome.quota ∧
    (("hello" : String) == "" || ("hello" : String) == "Could not understand audio"
      || strStartsWith "hello" "STT error:") = false ∧
    (chatHandler demoQuotaBackend envTtsOk "hi" "s1" initialServerState).audio = none ∧
    (chatHandler demoQuotaBackend envTtsOk "hi" "s1" initialServerState).ttsAttempted
        = false := by
  have h := quota_exhaustion_fallback_no_tts demoQuotaBackend envTtsOk "hi" "s1"
    "hello" "s2" initialServerState initialServerState (by decide) (by decide)
  exact ⟨by decide, by decide, h.2.2.2.2.1, h.2.2.2.2.2.1⟩

/-- C3 counterexample: after the first candidate fails with 404 and the
second succeeds, `activeModelId` remembers `"gemini-2.5-pro"`, yet the next
independent call still tries `"gemini-2.5-flash"` — the head of the fixed
candidate list — first, so the remembered candidate is not the first one
tried. -/
theorem sticky_fallback_counterexample :
    (processWithGemini cexBackendFirstFails "hi" "s1" initialServerState).state.activeModelId
        = "gemini-2.5-pro" ∧
    ((processWithGemini demoBackendOk "hi again" "s1"
        (processWithGemini cexBackendFirstFails "hi" "s1" initialServerState).state).attempts.head?
        = some "gemini-2.5-flash") ∧
    ("gemini-2.5-flash" : String) ≠ "gemini-2.5-pro" := by
  refine ⟨by decide, by decide, by decide⟩

/-- C3 amended: the last-tried candidate is remembered in `activeModelId`,
but the fallback is not sticky across calls — every `processWithGemini`
call iterates the fixed candidate list from its head, so the first
candidate tried is always `"gemini-2.5-flash"`. -/
theorem candidate_order_restarts_from_head
    (b : String → GeminiOutcome) (m sid : String) (st : ServerState) :
    (processWithGemini b m sid st).attempts.head? = some "gemini-2.5-flash" ∧
    (processWithGemini b m sid st).state.activeModelId
        = (processWithGemini b m sid st).attempts.getLastD st.activeModelId := by
  constructor
  · rw [processWithGemini_attempts]
    exact runCandidates_attempts_head b "gemini-2.5-flash" ["gemini-2.5-pro"]
      st.activeModelId none
  · rw [processWithGemini_active, processWithGemini_attempts]
    exact runCandidates_active_last b MODEL_CANDIDATES st.activeModelId none

/-- C5: a `/talk` transcript that is empty, the sentinel
`"Could not understand audio"`, or prefixed by `"STT error:"` is answered
with HTTP 400, the server state is untouched, and `processWithGemini` is
never invoked. -/
theorem unusable_transcript_rejected_before_gemini
    (b : String → GeminiOutcome) (env : TtsEnv) (utext sid : String)
    (st : ServerState)
    (h : utext = "" ∨ utext = "Could not understand audio"
          ∨ strStartsWith utext "STT error:" = true) :
    (talkHandlerFromTranscript b env utext sid st).status = 400 ∧
    (talkHandlerFromTranscript b env utext sid st).geminiCalled = false ∧
    (talkHandlerFromTranscript b env utext sid st).state = st := by
  rcases h with h | h | h
  · subst h; simp [talkHandlerFromTranscript]
  · subst h; simp [talkHandlerFromTranscript]
  · simp [talkHandlerFromTranscript, h]

/-- Witness for C5 at the concrete transcript `"STT error: decode failed"`. -/
theorem unusable_transcript_rejected_before_gemini_witness :
    (("STT error: decode failed" : String) = ""
      ∨ ("STT error: decode failed" : String) = "Could not understand audio"
      ∨ strStartsWith "STT error: decode failed" "STT error:" = true) ∧
    (talkHandlerFromTranscript demoBackendOk envTtsOk "STT error: decode failed"
        "s1" initialServerState).status = 400 ∧
    (talkHandlerFromTranscript demoBackendOk envTtsOk "STT error: decode failed"
        "s1" initialServerState).geminiCalled = false := by
  have h := unusable_transcript_rejected_before_gemini demoBackendOk envTtsOk
    "STT error: decode failed" "s1" initialServerState
    (Or.inr (Or.inr (by decide)))
  exact ⟨Or.inr (Or.inr (by decide)), h.1, h.2.1⟩

/-- C6: a never-seen session id reads as the empty history, and after N
`processWithGemini` calls that complete with a successful model response the
history holds exactly 2N turns, one user turn then one model turn per call,
in call order. -/
theorem fresh_session_history_growth
    (st : ServerState) (sid : String)
    (calls : List ((String → GeminiOutcome) × String))
    (hfresh : mapLookup st.chatSessions sid = none)
    (hok : ∀ c ∈ calls, callSucceeds c.1 = true) :
    getHistory st sid = [] ∧
    getHistory (respondCalls sid calls st) sid
      = (calls.map fun c =>
          [Turn.mk "user" c.2, Turn.mk "model" (replyTextOf c.1)]).flatten ∧
    (getHistory (respondCalls sid calls st) sid).length = 2 * calls.length := by
  have h0 : getHistory st sid = [] := by simp [getHistory, hfresh]
  have hturn : ∀ c ∈ calls, callTurns c.1 c.2
      = [Turn.mk "user" c.2, Turn.mk "model" (replyTextOf c.1)] := by
    intro c hc
    have hs := hok c hc
    unfold callSucceeds at hs
    cases hco : callOutcome c.1 with
    | success r => simp [callTurns, replyTextOf, hco]
    | quota => rw [hco] at hs; simp at hs
    | failed x => rw [hco] at hs; simp at hs
  have hmap : (calls.map fun c => callTurns c.1 c.2)
      = calls.map fun c => [Turn.mk "user" c.2, Turn.mk "model" (replyTextOf c.1)] :=
    List.map_congr_left hturn
  refine ⟨h0, ?_, ?_⟩
  · rw [respondCalls_history, h0, hmap]; simp
  · rw [respondCalls_history, h0, List.nil_append,
      flatten_length_two _ (by
        intro x hx
        obtain ⟨c, hc, rfl⟩ := List.mem_map.1 hx
        rw [hturn c hc]
        rfl),
      List.length_map]

/-- Witness for C6: two successful calls on a fresh session leave four
turns. -/
theorem fresh_session_history_growth_witness :
    mapLookup initialServerState.chatSessions "s1" = none ∧
    (∀ c ∈ demoCalls, callSucceeds c.1 = true) ∧
    (getHistory (respondCalls "s1" demoCalls initialServerState) "s1").length
        = 2 * demoCalls.length := by
  have h := fresh_session_history_growth initialServerState "s1" demoCalls rfl
    (by decide)
  exact ⟨rfl, by decide, h.2.2⟩

/-- C7 counterexample: a backend reply whose expression and animation lie
outside the fixed vocabularies is returned to the client unchanged with
status 200, not treated as a model-provider error. -/
theorem out_of_vocab_reply_passed_through_cex :
    VALID_EXPRESSIONS.contains "confused" = false ∧
    VALID_ANIMATIONS.contains "Backflip" = false ∧
    (chatHandler cexOutOfVocabBackend envTtsOk "hello" "s1" initialServerState).reply
        = some { text := "hey!", facialExpression := "confused",
                 animation := "Backflip", exhausted := false } ∧
    (chatHandler cexOutOfVocabBackend envTtsOk "hello" "s1" initialServerState).status
        = 200 := by
  refine ⟨by decide, by decide, by decide, by decide⟩

/-- C7 amended: every successful backend reply is passed through to the
client verbatim — the vocabularies only parameterize the prompt, and no
validation of `facialExpression` or `animation` takes place. -/
theorem model_reply_passed_through
    (b : String → GeminiOutcome) (env : TtsEnv) (m sid : String)
    (st : ServerState) (r : ModelReply)
    (h : callOutcome b = .success r) :
    (chatHandler b env m sid st).reply = some r := by
  have hr := processWithGemini_success_reply b m sid st r h
  by_cases hx : r.exhausted
  · simp [chatHandler, hr, hx]
  · cases htts : (textToSpeechRun env).result <;> simp [chatHandler, hr, hx, htts]

/-- Witness for the amended C7 at a concrete in-vocabulary reply. -/
theorem model_reply_passed_through_witness :
    callOutcome demoBackendOk = CallOutcome.success demoReply ∧
    (chatHandler demoBackendOk envTtsOk "hi" "s1" initialServerState).reply
        = some demoReply :=
  ⟨rfl, model_reply_passed_through demoBackendOk envTtsOk "hi" "s1"
    initialServerState demoReply rfl⟩

/-- C8 (code bug): when the worker request fails after the temp output file
was created, `textToSpeech` propagates the error without any cleanup and the
uniquely named temp file stays on disk; only the success path unlinks it. -/
theorem tts_temp_file_left_on_failure :
    (textToSpeechRun ttsFailEnv).fileLeft = true ∧
    (textToSpeechRun ttsFailEnv).result
        = Except.error (SpeechError.workerReported "piper failed") ∧
    (textToSpeechRun envTtsOk).fileLeft = false :=
  ⟨rfl, rfl, rfl⟩

/-- C9: `/clear-history` reports success for every id — including unknown
ones, since the handler is total — and leaves the history of every other
session id unchanged. -/
theorem clear_history_succeeds_and_preserves_others
    (st : ServerState) (sessionId : Option String) (other : String)
    (h : other ≠ resolveClearId sessionId) :
    (clearHistoryHandler st sessionId).2.1 = true ∧
    mapLookup (clearHistoryHandler st sessionId).1.chatSessions other
        = mapLookup st.chatSessions other :=
  ⟨rfl, mapLookup_delete_ne st.chatSessions (resolveClearId sessionId) other h⟩

/-- Witness for C9: clearing the unknown id `"ghost"` succeeds and leaves
session `"alice"` untouched. -/
theorem clear_history_succeeds_and_preserves_others_witness :
    ("alice" : String) ≠ resolveClearId (some "ghost") ∧
    (clearHistoryHandler demoSessions (some "ghost")).2.1 = true ∧
    mapLookup (clearHistoryHandler demoSessions (some "ghost")).1.chatSessions "alice"
        = mapLookup demoSessions.chatSessions "alice" := by
  have h := clear_history_succeeds_and_preserves_others demoSessions (some "ghost")
    "alice" (by decide)
  exact ⟨by decide, h.1, h.2⟩

/-- C10: a quota-exhaustion fallback leaves the session's stored history
completely unchanged — neither the user turn nor an assistant turn is
appended, so the fallback exchange is never replayed to the model later. -/
theorem quota_fallback_leaves_history_unchanged
    (b : String → GeminiOutcome) (m sid : String) (st : ServerState)
    (hq : callOutcome b = .quota) :
    (processWithGemini b m sid st).reply = some geminiFallbackReply ∧
    getHistory (processWithGemini b m sid st).state sid = getHistory st sid := by
  obtain ⟨h1, h2⟩ := processWithGemini_quota_reply b m sid st hq
  exact ⟨h1, by simp [getHistory, h2, mapLookup_set_self]⟩

/-- Witness for C10 at a concrete 429 quota error. -/
theorem quota_fallback_leaves_history_unchanged_witness :
    callOutcome demoQuotaBackend = CallOutcome.quota ∧
    getHistory (processWithGemini demoQuotaBackend "hi" "s1" initialServerState).state "s1"
        = getHistory initialServerState "s1" :=
  ⟨by decide,
   (quota_fallback_leaves_history_unchanged demoQuotaBackend "hi" "s1"
     initialServerState (by decide)).2⟩

end Ziva
